import Mathlib

/-!
Verification development for SouthForkResearch/conductivity,
src/predict_cond.py.

The script is glue code over the arcpy geoprocessing library.  We give a
shallow embedding: feature classes are schemas plus rows, the arcpy
operations the script calls (ListFields, DeleteField, JoinField,
CopyFeatures, Delete, the in_memory workspace, TableToTable) are modelled
as pure functions over an explicit file/workspace store, and `main` is
transcribed as a function from its inputs plus an `Ext` record of
external facts (the workspace type reported by arcpy.Describe, whether
the external R process wrote its output csv and with which rows, its
return code, and the wall-clock timestamps) to a `RunResult` describing
every observable effect: messages, errors, files written or deleted,
in-memory datasets, the subprocess command line, and how the run
terminated.
-/

namespace PredictCond

/-- An attribute field of a feature class: a name and a field type
("Geometry", "OID", "Integer", "Double", ...), mirroring the two
properties of arcpy field objects that predict_cond.py reads
(`field.name` at line 46, `f.type` and `f.name` at lines 65-69). -/
structure Field where
  name : String
  ftype : String
deriving DecidableEq

/-- One feature (row) of a feature class: an association list from
attribute-field names to values.  A value of `none` models a SQL null.
Geometry and object-id payloads are never read by predict_cond.py and
are not modelled. -/
structure Row where
  attrs : List (String × Option Int)
deriving DecidableEq

/-- A vector feature class: its attribute schema and its rows. -/
structure FeatureClass where
  fields : List Field
  rows : List Row
deriving DecidableEq

/-- Value of attribute `n` on row `r`; `none` models both SQL null and,
for rows that predate a field's creation, an absent entry. -/
def lookupAttr (r : Row) (n : String) : Option Int :=
  match r.attrs.find? (fun a => a.1 == n) with
  | some a => a.2
  | none => none

/-- Whether row `r` carries an attribute entry named `n`. -/
def Row.hasAttr (r : Row) (n : String) : Bool :=
  r.attrs.any (fun a => a.1 == n)

/-- Whether the feature class has an attribute field named `n`. -/
def hasField (fc : FeatureClass) (n : String) : Bool :=
  fc.fields.any (fun f => f.name == n)

/-- Models `arcpy.ListFields(in_fc, wild_card)`: the fields of the
dataset whose name matches the filter.  predict_cond.py only ever passes
the exact field name "LineOID" (line 44), so the wildcard is modelled as
exact name match. -/
def listFields (fc : FeatureClass) (wildCard : String) : List Field :=
  fc.fields.filter (fun f => f.name == wildCard)

/-- Function `checkLineOID`, predict_cond.py lines 34-49.  The Python loop
returns on its first iteration (both branches return), and when
ListFields returns the empty list the loop body never runs and the
function falls off the end, returning Python `None`; the result type is
therefore `Option Bool`, with `none` for that fall-through. -/
def checkLineOID (in_fc : FeatureClass) : Option Bool :=
  let fieldName := "LineOID"
  let fields := listFields in_fc fieldName
  match fields with
  | [] => none
  | field :: _ => if field.name == fieldName then some true else some false

/-- Models `arcpy.DeleteField_management(in_fc, field_name_list)`:
removes every field whose name is in the list, and the corresponding
attribute entries from every row. -/
def deleteFieldList (fc : FeatureClass) (names : List String) : FeatureClass :=
  { fields := fc.fields.filter (fun f => !(names.contains f.name)),
    rows := fc.rows.map (fun r => ⟨r.attrs.filter (fun a => !(names.contains a.1))⟩) }

/-- The loop condition of `removeFields` (predict_cond.py lines 65-69):
a field is collected for deletion when it is not of type Geometry, not
of type OID, and not named "LineOID", "error_code" or "prdCond". -/
def dropPred (f : Field) : Bool :=
  !(f.ftype == "Geometry") && !(f.ftype == "OID") && !(f.name == "LineOID")
    && !(f.name == "error_code") && !(f.name == "prdCond")

/-- Function `removeFields`, predict_cond.py lines 52-72: collects the names of
every field satisfying `dropPred`, then deletes those fields. -/
def removeFields (in_fc : FeatureClass) : FeatureClass :=
  let field_obj_list := in_fc.fields
  let field_name_list := (field_obj_list.filter dropPred).map Field.name
  deleteFieldList in_fc field_name_list

/-- One row of the prediction table `predicted_cond.csv` written by the
external R script and converted to dbf: the join key plus the two value
columns that the rest of the script relies on ("error_code" and
"prdCond", the fields `removeFields` preserves at lines 68-69). -/
structure PredRow where
  lineOID : Int
  error_code : Int
  prdCond : Int
deriving DecidableEq

/-- Per-row effect of `arcpy.JoinField_management(fc, "LineOID", view,
"LineOID")` (predict_cond.py line 181): the first prediction row whose
key equals the row's "LineOID" value supplies the joined values; a row
with no match keeps null (none) in the joined columns, and is not
dropped. -/
def joinPred (pred : List PredRow) (r : Row) : Row :=
  match lookupAttr r "LineOID" with
  | some k =>
    match pred.find? (fun p => p.lineOID == k) with
    | some p => ⟨r.attrs ++ [("error_code", some p.error_code), ("prdCond", some p.prdCond)]⟩
    | none => ⟨r.attrs ++ [("error_code", none), ("prdCond", none)]⟩
  | none => ⟨r.attrs ++ [("error_code", none), ("prdCond", none)]⟩

/-- Models `arcpy.JoinField_management` on the whole feature class: the
non-key columns of the join table are appended to the schema and every
row is extended by `joinPred`. -/
def joinField (fc : FeatureClass) (pred : List PredRow) : FeatureClass :=
  { fields := fc.fields ++ [⟨"error_code", "Integer"⟩, ⟨"prdCond", "Double"⟩],
    rows := fc.rows.map (joinPred pred) }

/-- Deletes, one `arcpy.Delete_management` call at a time, every dataset
whose name is listed, from an association-list workspace. -/
def deleteEach {α : Type} (ws : List (String × α)) (names : List String) :
    List (String × α) :=
  names.foldl (fun acc n => acc.filter (fun e => !(e.1 == n))) ws

/-- Function `clear_inmemory`, predict_cond.py lines 75-89: lists the feature
classes and the tables of the IN_MEMORY workspace and deletes each. -/
def clear_inmemory (memFCs : List (String × FeatureClass))
    (memTables : List (String × List PredRow)) :
    List (String × FeatureClass) × List (String × List PredRow) :=
  let list_fc := memFCs.map Prod.fst
  let list_tbl := memTables.map Prod.fst
  (deleteEach memFCs list_fc, deleteEach memTables list_tbl)

/-- Name of the random forest model, predict_cond.py line 31. -/
def MODEL_RF : String := "rf17bCnd9"

/-- Modelled from the spec: the generic run-metadata writer
(`metadata.meta_sfr.MetadataWriter`, imported at line 16 but not under
src/).  Per the spec it records the tool name and version and a list of
declared run parameters. -/
structure MetadataWriter where
  toolName : String
  toolVersion : String
  params : List (String × String)
deriving DecidableEq

/-- Method `mWriter.currentRun.addParameter(name, value)`: appends one declared
run parameter. -/
def MetadataWriter.addParameter (w : MetadataWriter) (k v : String) :
    MetadataWriter :=
  { w with params := w.params ++ [(k, v)] }

/-- Modelled from the spec: the serialized content of the generic
run-metadata XML file — tool name/version, the declared parameters, a
start/stop timestamp pair and the final status string. -/
structure MetaXml where
  toolName : String
  toolVersion : String
  params : List (String × String)
  startTime : String
  stopTime : String
  status : String
deriving DecidableEq

/-- Modelled from the spec: `mWriter.finalizeRun(status)` followed by
`mWriter.writeMetadataFile(out_xml)` — fixes the start/stop timestamp
pair and the status string, yielding the document to serialize. -/
def MetadataWriter.finalizeRun (w : MetadataWriter)
    (startTime stopTime status : String) : MetaXml :=
  { toolName := w.toolName, toolVersion := w.toolVersion, params := w.params,
    startTime := startTime, stopTime := stopTime, status := status }

/-- Modelled from the spec: the content of the Riverscapes project
lineage XML ("project.rs.xml") as assembled by the `metadata` helper of
predict_cond.py (lines 92-114): the model name meta tag, the realization
input and output dataset references, and the start/stop timestamp
pair. -/
structure RsXml where
  model : String
  realId : String
  inputPath : String
  outputPath : String
  startTime : String
  stopTime : String
deriving DecidableEq

/-- The `metadata` helper, predict_cond.py lines 92-114, with the
ProjectXML object's methods modelled from the spec: finalizes the
timestamps and records the model meta tag, the realization input
(`in_fc`), the realization output (`out_fc`) and the realization id into
the lineage document, which `ecXML.write()` then serializes. -/
def metadata (startTime stopTime : String) (in_fc out_fc real_id : String) :
    RsXml :=
  { model := MODEL_RF, realId := real_id, inputPath := in_fc,
    outputPath := out_fc, startTime := startTime, stopTime := stopTime }

/-- Modelled from the spec: `rs.getRSDirAbs(rs_dir, category,
subcategory, real_id)` — an absolute project-tree directory addressed by
a (category, subcategory, realization-id) triple under the project
directory. -/
def getRSDirAbs (rs_dir : String) (cat sub : Nat) (real_id : String) : String :=
  rs_dir ++ "\\" ++ toString cat ++ "_" ++ toString sub ++ "_" ++ real_id

/-- Modelled from the spec: `rs.getRSDirRel(category, subcategory,
real_id)` — the same directory as a path relative to the project
root. -/
def getRSDirRel (cat sub : Nat) (real_id : String) : String :=
  toString cat ++ "_" ++ toString sub ++ "_" ++ real_id

/-- Contents of a file produced or consumed by the run. -/
inductive FileData where
  | csv (rows : List PredRow)
  | dbf (rows : List PredRow)
  | metaXml (m : MetaXml)
  | rsXml (m : RsXml)
  | fc (data : FeatureClass)
deriving DecidableEq

/-- Whether a file is a generic run-metadata XML document. -/
def FileData.isMetaXml : FileData → Bool
  | FileData.metaXml _ => true
  | _ => false

/-- Whether a file is a project lineage XML document. -/
def FileData.isRsXml : FileData → Bool
  | FileData.rsXml _ => true
  | _ => false

/-- Writing a file at a path (arcpy runs with
`arcpy.env.overwriteOutput = True`, line 20, so a later write at the
same path shadows an earlier one: lookups read the newest entry). -/
def setFile (p : String) (d : FileData) (files : List (String × FileData)) :
    List (String × FileData) :=
  (p, d) :: files

/-- Models `arcpy.Delete_management(p)`: the path no longer resolves. -/
def removeFile (p : String) (files : List (String × FileData)) :
    List (String × FileData) :=
  files.filter (fun e => !(e.1 == p))

/-- The file currently stored at a path, if any. -/
def getFile (files : List (String × FileData)) (p : String) : Option FileData :=
  (files.find? (fun e => e.1 == p)).map Prod.snd

/-- How the Python process ends: a normal return from main, a
`sys.exit(code)`, or an uncaught exception of the given kind. -/
inductive ExitKind where
  | normal : ExitKind
  | sysExit (code : Nat) : ExitKind
  | exn (kind : String) : ExitKind
deriving DecidableEq

/-- External facts main depends on but does not compute: what
`arcpy.Describe` reports for the input's workspace, whether the external
R process wrote predicted_cond.csv and with which rows, its return code
(which the script could in principle read from `process`), the
`time.strftime` stamp, the metadata start/stop timestamps, and the
`projectXML.realIDdict` mapping from realization names to realization
ids. -/
structure Ext where
  workspaceType : String
  rWritesCSV : Bool
  predTable : List PredRow
  rReturnCode : Int
  timeStamp : String
  startTime : String
  stopTime : String
  realIDdict : String → String

/-- Everything observable about one run of `main`: messages and errors
emitted, the final on-disk file store (seeded with the input feature
class at its path), the final project-directory store, the final
IN_MEMORY workspace, the command line handed to `subprocess.Popen` (if
any), and how the process terminated. -/
structure RunResult where
  messages : List String
  errors : List String
  files : List (String × FileData)
  rsFiles : List (String × FileData)
  memFCs : List (String × FeatureClass)
  memTables : List (String × List PredRow)
  rCmd : Option (List String)
  exitKind : ExitKind
deriving DecidableEq

/-- Models `os.path.join` and the "dir\\name" string formatting the script uses
(it runs under Windows arcpy, so the separator is a backslash). -/
def pjoin (a b : String) : String := a ++ "\\" ++ b

/-- The input feature class path, reassembled from
`os.path.dirname(in_fc)` and `os.path.basename(in_fc)` (lines
128-129). -/
def inFCPath (in_fc_dir in_fc_name : String) : String := pjoin in_fc_dir in_fc_name

/-- The output feature class path (lines 130-131). -/
def outFCPath (out_dir out_fc_name : String) : String := pjoin out_dir out_fc_name

/-- Path of predicted_cond.csv, line 173. -/
def csvPath (out_dir : String) : String := pjoin out_dir "predicted_cond.csv"

/-- Path of predicted_cond.dbf, lines 174, 178, 208. -/
def dbfPath (out_dir : String) : String := pjoin out_dir "predicted_cond.dbf"

/-- Path of the generic run-metadata XML, line 139:
"meta_predict_<timestamp>.xml" in the output directory. -/
def outXmlPath (out_dir ts : String) : String :=
  pjoin out_dir ("meta_predict_" ++ ts ++ ".xml")

/-- Path of the project lineage XML, line 153. -/
def rsXmlPath (rs_dir : String) : String := pjoin rs_dir "project.rs.xml"

/-- The command line built at lines 157-166: `Rscript` followed by the
script path and the three positional arguments model path, output
directory, parameter-table path. -/
def rCommand (scriptDir out_dir in_params : String) : List String :=
  let rScriptPath := pjoin scriptDir "condRF.R"
  let modelPath := pjoin scriptDir "rf17bCnd9.rdata"
  let argR := [modelPath, out_dir, in_params]
  ["Rscript", rScriptPath] ++ argR

/-- Function `main`, predict_cond.py lines 117-216, transcribed step for step.
The input feature class is given as its path components plus its data;
the store starts holding that dataset at its path.  `in_shp_name` is an
`Option` because the Python local is bound only under the
workspaceType == "LocalDatabase" branch (lines 133-135); reading it
unbound at line 202 is the uncaught NameError.  A missing
predicted_cond.csv makes `arcpy.TableToTable_conversion` (line 174)
raise an uncaught missing-file error.  The external R process's return
code is available in `ext` but never consulted. -/
def runMain (in_fc_dir in_fc_name : String) (in_fc_data : FeatureClass)
    (in_params out_dir out_fc_name rs_bool rs_dir rs_real_name scriptDir : String)
    (ext : Ext) : RunResult :=
  let in_fc := inFCPath in_fc_dir in_fc_name
  let out_fc := outFCPath out_dir out_fc_name
  let in_shp_name : Option String :=
    if ext.workspaceType = "LocalDatabase" then some (in_fc_name ++ ".shp") else none
  let out_xml := outXmlPath out_dir ext.timeStamp
  let mWriter :=
    ((((MetadataWriter.mk "Predict Conductivity" "0.4" []).addParameter
        "Stream network polyline feature class" in_fc).addParameter
        "Environmental parameter table" in_params).addParameter
        "Predicted conductivity feature class" out_fc).addParameter
        "Output metadata XML" out_xml
  let files0 : List (String × FileData) := [(in_fc, FileData.fc in_fc_data)]
  if checkLineOID in_fc_data = some true then
    let msgs0 := ["Predicting conductivity using Random Forest model in R..."]
    let cmd := rCommand scriptDir out_dir in_params
    if ext.rWritesCSV then
      let files1 := setFile (csvPath out_dir) (FileData.csv ext.predTable) files0
      let files2 := setFile (dbfPath out_dir) (FileData.dbf ext.predTable) files1
      let joined := joinField in_fc_data ext.predTable
      let mem1 : List (String × FeatureClass) := [("in_fc_tmp", joined)]
      let msgs1 := msgs0 ++
        ["Joining predicted conductivity results to the stream network...",
         "Exporting final feature class as " ++ out_fc]
      let files3 := setFile out_fc (FileData.fc joined) files2
      let out_final := removeFields joined
      let files4 := setFile out_fc (FileData.fc out_final) files3
      let msgs2 := msgs1 ++ ["Cleaning up final output..."]
      let metaDoc := mWriter.finalizeRun ext.startTime ext.stopTime "Success"
      let files5 := setFile out_xml (FileData.metaXml metaDoc) files4
      if rs_bool = "true" then
        let real_id := ext.realIDdict rs_real_name
        let abs_fc_path := pjoin (getRSDirAbs rs_dir 1 0 real_id) in_fc_name
        let abs_out_path := pjoin (getRSDirAbs rs_dir 1 2 real_id) out_fc_name
        let rsFiles1 := setFile abs_out_path (FileData.fc out_final)
          (setFile abs_fc_path (FileData.fc in_fc_data) [])
        let msgs3 := msgs2 ++ ["Exporting to Riverscapes project..."]
        match in_shp_name with
        | none =>
          { messages := msgs3, errors := [], files := files5, rsFiles := rsFiles1,
            memFCs := mem1, memTables := [], rCmd := some cmd,
            exitKind := ExitKind.exn "NameError" }
        | some shp =>
          let rel_fc_path := pjoin (getRSDirRel 1 0 real_id) shp
          let rel_out_path := pjoin (getRSDirRel 1 2 real_id) out_fc_name
          let rsDoc := metadata ext.startTime ext.stopTime rel_fc_path rel_out_path real_id
          let rsFiles2 := setFile (rsXmlPath rs_dir) (FileData.rsXml rsDoc) rsFiles1
          let cleared := clear_inmemory mem1 []
          let files6 := removeFile (csvPath out_dir) (removeFile (dbfPath out_dir) files5)
          { messages := msgs3 ++ ["Deleting in_memory data...",
              "Conductivity prediction process complete!"],
            errors := [], files := files6, rsFiles := rsFiles2,
            memFCs := cleared.1, memTables := cleared.2, rCmd := some cmd,
            exitKind := ExitKind.normal }
      else
        let cleared := clear_inmemory mem1 []
        let files6 := removeFile (csvPath out_dir) (removeFile (dbfPath out_dir) files5)
        { messages := msgs2 ++ ["Deleting in_memory data...",
            "Conductivity prediction process complete!"],
          errors := [], files := files6, rsFiles := [],
          memFCs := cleared.1, memTables := cleared.2, rCmd := some cmd,
          exitKind := ExitKind.normal }
    else
      { messages := msgs0, errors := [], files := files0, rsFiles := [],
        memFCs := [], memTables := [], rCmd := some cmd,
        exitKind := ExitKind.exn "IOError" }
  else
    { messages := [],
      errors := ["The LineOID attribute field is missing! Cancelling process..."],
      files := files0, rsFiles := [], memFCs := [], memTables := [],
      rCmd := none, exitKind := ExitKind.sysExit 0 }

/-! ## Helper lemmas -/

lemma listFields_eq_nil_of_not_hasField (fc : FeatureClass) (n : String)
    (h : hasField fc n = false) : listFields fc n = [] := by
  unfold listFields
  rw [List.filter_eq_nil_iff]
  intro f hf hfn
  have hany : fc.fields.any (fun f => f.name == n) = true :=
    List.any_eq_true.mpr ⟨f, hf, hfn⟩
  unfold hasField at h
  rw [h] at hany
  exact Bool.noConfusion hany

lemma checkLineOID_of_hasField (fc : FeatureClass)
    (h : hasField fc "LineOID" = true) : checkLineOID fc = some true := by
  have hex : ∃ f ∈ fc.fields, f.name = "LineOID" := by
    simpa [hasField, List.any_eq_true] using h
  simp only [checkLineOID, listFields]
  cases hfil : fc.fields.filter (fun f => f.name == "LineOID") with
  | nil =>
    exfalso
    obtain ⟨f, hf, hfn⟩ := hex
    have hmem : f ∈ fc.fields.filter (fun f => f.name == "LineOID") :=
      List.mem_filter.mpr ⟨hf, by simp [hfn]⟩
    rw [hfil] at hmem
    simp at hmem
  | cons g t =>
    have hg : g ∈ fc.fields.filter (fun f => f.name == "LineOID") := by
      rw [hfil]; exact List.mem_cons_self g t
    have hgn := (List.mem_filter.mp hg).2
    simp [hgn]

lemma checkLineOID_eq_none (fc : FeatureClass)
    (h : hasField fc "LineOID" = false) : checkLineOID fc = none := by
  simp only [checkLineOID, listFields]
  rw [show fc.fields.filter (fun f => f.name == "LineOID") = [] from
    listFields_eq_nil_of_not_hasField fc "LineOID" h]

lemma checkLineOID_ne_some_true_of_not_hasField (fc : FeatureClass)
    (h : hasField fc "LineOID" = false) : ¬ checkLineOID fc = some true := by
  rw [checkLineOID_eq_none fc h]
  simp

lemma dropPred_eq_false_iff (f : Field) :
    dropPred f = false ↔ f.ftype = "Geometry" ∨ f.ftype = "OID" ∨
      f.name = "LineOID" ∨ f.name = "error_code" ∨ f.name = "prdCond" := by
  simp [dropPred]
  tauto

/-- The three value-column names are never on the deletion list built by
`removeFields`, for any feature class. -/
lemma contains_dropNames_false (fc : FeatureClass) (n : String)
    (hn : n = "LineOID" ∨ n = "error_code" ∨ n = "prdCond") :
    ((fc.fields.filter dropPred).map Field.name).contains n = false := by
  by_contra hcon
  have hmem : n ∈ (fc.fields.filter dropPred).map Field.name := by
    simpa using Bool.of_not_eq_false hcon
  obtain ⟨g, hg, hgn⟩ := List.mem_map.mp hmem
  have hdrop := (List.mem_filter.mp hg).2
  rcases hn with h | h | h <;> rw [h] at hgn <;> simp [dropPred, hgn] at hdrop

/-- Every field surviving `removeFields` came from the input and is one
of the five kept categories (no duplicate-name assumption needed). -/
lemma mem_removeFields_fields (fc : FeatureClass) (f : Field)
    (hf : f ∈ (removeFields fc).fields) : f ∈ fc.fields ∧ dropPred f = false := by
  simp only [removeFields, deleteFieldList] at hf
  obtain ⟨hmem, hkeep⟩ := List.mem_filter.mp hf
  refine ⟨hmem, ?_⟩
  by_contra hcon
  have hdrop : dropPred f = true := Bool.of_not_eq_false hcon
  have hin : f.name ∈ (fc.fields.filter dropPred).map Field.name :=
    List.mem_map.mpr ⟨f, List.mem_filter.mpr ⟨hmem, hdrop⟩, rfl⟩
  have hcontains : ((fc.fields.filter dropPred).map Field.name).contains f.name = true := by
    simpa using hin
  rw [hcontains] at hkeep
  exact Bool.noConfusion hkeep

/-- When field names are pairwise distinct, `removeFields` keeps exactly
the fields that fail `dropPred`, in order. -/
lemma removeFields_fields_of_nodup (fc : FeatureClass)
    (hnd : (fc.fields.map Field.name).Nodup) :
    (removeFields fc).fields = fc.fields.filter (fun f => !(dropPred f)) := by
  simp only [removeFields, deleteFieldList]
  apply List.filter_congr
  intro f hf
  congr 1
  cases hd : dropPred f with
  | true =>
    have hin : f.name ∈ (fc.fields.filter dropPred).map Field.name :=
      List.mem_map.mpr ⟨f, List.mem_filter.mpr ⟨hf, hd⟩, rfl⟩
    simpa using hin
  | false =>
    have hnot : f.name ∉ (fc.fields.filter dropPred).map Field.name := by
      intro hmem
      obtain ⟨g, hg, hgn⟩ := List.mem_map.mp hmem
      have hgmem := (List.mem_filter.mp hg).1
      have hgdrop := (List.mem_filter.mp hg).2
      have hgf : g = f := List.inj_on_of_nodup_map hnd hgmem hf hgn
      rw [hgf] at hgdrop
      rw [hgdrop] at hd
      exact Bool.noConfusion hd
    simpa using hnot

/-- The rows of `removeFields fc`: each row filtered to the surviving
attribute names. -/
lemma removeFields_rows (fc : FeatureClass) :
    (removeFields fc).rows = fc.rows.map (fun r =>
      ⟨r.attrs.filter (fun a =>
        !(((fc.fields.filter dropPred).map Field.name).contains a.1))⟩) := rfl

/-- Filtering a row's attributes by a name list that does not mention
`n` does not change the value of attribute `n`. -/
lemma lookupAttr_filter_of_not_contains (attrs : List (String × Option Int))
    (names : List String) (n : String) (h : names.contains n = false) :
    lookupAttr ⟨attrs.filter (fun a => !(names.contains a.1))⟩ n =
      lookupAttr ⟨attrs⟩ n := by
  induction attrs with
  | nil => rfl
  | cons a l ih =>
    cases ha : a.1 == n with
    | true =>
      have han : a.1 = n := eq_of_beq ha
      have hc : names.contains a.1 = false := by rw [han]; exact h
      have hpa : (!(names.contains a.1)) = true := by rw [hc]; rfl
      rw [List.filter_cons, if_pos hpa]
      simp only [lookupAttr, List.find?_cons, ha]
    | false =>
      cases hc : names.contains a.1 with
      | true =>
        have hpa : ¬ ((!(names.contains a.1)) = true) := by rw [hc]; simp
        rw [List.filter_cons, if_neg hpa]
        rw [ih]
        simp only [lookupAttr, List.find?_cons, ha]
      | false =>
        have hpa : (!(names.contains a.1)) = true := by rw [hc]; rfl
        rw [List.filter_cons, if_pos hpa]
        simp only [lookupAttr, List.find?_cons, ha]
        exact ih

/-- Looking up an attribute that does not occur in the left part of an
appended attribute list reads the right part. -/
lemma lookupAttr_append (l₁ l₂ : List (String × Option Int)) (n : String)
    (h : ∀ a ∈ l₁, (a.1 == n) = false) :
    lookupAttr ⟨l₁ ++ l₂⟩ n = lookupAttr ⟨l₂⟩ n := by
  induction l₁ with
  | nil => rfl
  | cons a l ih =>
    have ha := h a (List.mem_cons_self a l)
    simp only [List.cons_append, lookupAttr, List.find?_cons, ha]
    exact ih (fun b hb => h b (List.mem_cons_of_mem a hb))

/-- The "prdCond" value `JoinField` leaves on a row whose key is `k`:
the value of the first prediction row with that key, null when there is
none. -/
lemma lookupAttr_joinPred_prdCond (pred : List PredRow) (r : Row) (k : Int)
    (hk : lookupAttr r "LineOID" = some k)
    (hp : r.hasAttr "prdCond" = false) :
    lookupAttr (joinPred pred r) "prdCond" =
      (pred.find? (fun p => p.lineOID == k)).map PredRow.prdCond := by
  have hall : ∀ a ∈ r.attrs, (a.1 == "prdCond") = false := by
    intro a hmem
    by_contra hcon
    have : r.attrs.any (fun a => a.1 == "prdCond") = true :=
      List.any_eq_true.mpr ⟨a, hmem, Bool.of_not_eq_false hcon⟩
    unfold Row.hasAttr at hp
    rw [hp] at this
    exact Bool.noConfusion this
  cases hfind : pred.find? (fun p => p.lineOID == k) with
  | some p =>
    simp only [joinPred, hk, hfind]
    rw [lookupAttr_append _ _ _ hall]
    rfl
  | none =>
    simp only [joinPred, hk, hfind]
    rw [lookupAttr_append _ _ _ hall]
    rfl

lemma deleteEach_eq_nil {α : Type} (names : List String) (ws : List (String × α))
    (h : ∀ e ∈ ws, e.1 ∈ names) : deleteEach ws names = [] := by
  induction names generalizing ws with
  | nil =>
    have hws : ws = [] := by
      cases ws with
      | nil => rfl
      | cons e t => exact absurd (h e (List.mem_cons_self e t)) (List.not_mem_nil e.1)
    rw [hws]
    rfl
  | cons n ns ih =>
    show deleteEach (ws.filter (fun e => !(e.1 == n))) ns = []
    apply ih
    intro e he
    have hmem := (List.mem_filter.mp he).1
    have hne := (List.mem_filter.mp he).2
    cases List.mem_cons.mp (h e hmem) with
    | inl heq =>
      rw [heq] at hne
      simp at hne
    | inr h2 => exact h2

/-- Function `clear_inmemory` always empties the IN_MEMORY workspace, whatever it
held. -/
lemma clear_inmemory_eq_nil (memFCs : List (String × FeatureClass))
    (memTables : List (String × List PredRow)) :
    clear_inmemory memFCs memTables = ([], []) := by
  show (deleteEach memFCs (memFCs.map Prod.fst),
    deleteEach memTables (memTables.map Prod.fst)) = ([], [])
  rw [deleteEach_eq_nil _ _ (fun e he => List.mem_map_of_mem Prod.fst he),
    deleteEach_eq_nil _ _ (fun e he => List.mem_map_of_mem Prod.fst he)]

/-- Deleting a path makes it unresolvable, whatever was stored. -/
lemma getFile_removeFile_self (p : String) (files : List (String × FileData)) :
    getFile (removeFile p files) p = none := by
  unfold getFile removeFile
  rw [show (files.filter (fun e => !(e.1 == p))).find? (fun e => e.1 == p) = none from ?_]
  · rfl
  · rw [List.find?_eq_none]
    intro e he
    have := (List.mem_filter.mp he).2
    simp only [Bool.not_eq_eq_eq_not, Bool.not_true] at this
    simp [this]

/-- The content of the generic run-metadata XML document that `main`
serializes on a successful run. -/
def metaDocFor (in_fc_dir in_fc_name in_params out_dir out_fc_name : String)
    (ext : Ext) : MetaXml :=
  { toolName := "Predict Conductivity", toolVersion := "0.4",
    params := [("Stream network polyline feature class", inFCPath in_fc_dir in_fc_name),
               ("Environmental parameter table", in_params),
               ("Predicted conductivity feature class", outFCPath out_dir out_fc_name),
               ("Output metadata XML", outXmlPath out_dir ext.timeStamp)],
    startTime := ext.startTime, stopTime := ext.stopTime, status := "Success" }

/-- The file store of a run that got past the join, newest entry first,
before the end-of-run deletion of predicted_cond.dbf/.csv. -/
def successFiles (in_fc_dir in_fc_name : String) (in_fc_data : FeatureClass)
    (in_params out_dir out_fc_name : String) (ext : Ext) :
    List (String × FileData) :=
  (outXmlPath out_dir ext.timeStamp,
    FileData.metaXml (metaDocFor in_fc_dir in_fc_name in_params out_dir out_fc_name ext)) ::
  (outFCPath out_dir out_fc_name,
    FileData.fc (removeFields (joinField in_fc_data ext.predTable))) ::
  (outFCPath out_dir out_fc_name, FileData.fc (joinField in_fc_data ext.predTable)) ::
  (dbfPath out_dir, FileData.dbf ext.predTable) ::
  (csvPath out_dir, FileData.csv ext.predTable) ::
  [(inFCPath in_fc_dir in_fc_name, FileData.fc in_fc_data)]

/-- Characterization of the non-project successful run. -/
lemma runMain_success_noRS (in_fc_dir in_fc_name : String) (in_fc_data : FeatureClass)
    (in_params out_dir out_fc_name rs_bool rs_dir rs_real_name scriptDir : String)
    (ext : Ext) (hL : checkLineOID in_fc_data = some true)
    (hC : ext.rWritesCSV = true) (hrs : rs_bool ≠ "true") :
    runMain in_fc_dir in_fc_name in_fc_data in_params out_dir out_fc_name rs_bool
        rs_dir rs_real_name scriptDir ext =
      { messages := ["Predicting conductivity using Random Forest model in R...",
          "Joining predicted conductivity results to the stream network...",
          "Exporting final feature class as " ++ outFCPath out_dir out_fc_name,
          "Cleaning up final output...", "Deleting in_memory data...",
          "Conductivity prediction process complete!"],
        errors := [],
        files := removeFile (csvPath out_dir) (removeFile (dbfPath out_dir)
          (successFiles in_fc_dir in_fc_name in_fc_data in_params out_dir out_fc_name ext)),
        rsFiles := [], memFCs := [], memTables := [],
        rCmd := some (rCommand scriptDir out_dir in_params),
        exitKind := ExitKind.normal } := by
  simp only [runMain, hL, hC, if_true, clear_inmemory_eq_nil, if_neg hrs]
  simp [successFiles, metaDocFor, setFile, MetadataWriter.addParameter,
    MetadataWriter.finalizeRun, clear_inmemory_eq_nil]

/-- Characterization of the project-mode successful run (workspace type
"LocalDatabase", so `in_shp_name` is bound and the lineage XML is
written). -/
lemma runMain_success_RS (in_fc_dir in_fc_name : String) (in_fc_data : FeatureClass)
    (in_params out_dir out_fc_name rs_dir rs_real_name scriptDir : String)
    (ext : Ext) (hL : checkLineOID in_fc_data = some true)
    (hC : ext.rWritesCSV = true) (hws : ext.workspaceType = "LocalDatabase") :
    runMain in_fc_dir in_fc_name in_fc_data in_params out_dir out_fc_name "true"
        rs_dir rs_real_name scriptDir ext =
      { messages := ["Predicting conductivity using Random Forest model in R...",
          "Joining predicted conductivity results to the stream network...",
          "Exporting final feature class as " ++ outFCPath out_dir out_fc_name,
          "Cleaning up final output...", "Exporting to Riverscapes project...",
          "Deleting in_memory data...", "Conductivity prediction process complete!"],
        errors := [],
        files := removeFile (csvPath out_dir) (removeFile (dbfPath out_dir)
          (successFiles in_fc_dir in_fc_name in_fc_data in_params out_dir out_fc_name ext)),
        rsFiles := (rsXmlPath rs_dir, FileData.rsXml (metadata ext.startTime ext.stopTime
            (pjoin (getRSDirRel 1 0 (ext.realIDdict rs_real_name)) (in_fc_name ++ ".shp"))
            (pjoin (getRSDirRel 1 2 (ext.realIDdict rs_real_name)) out_fc_name)
            (ext.realIDdict rs_real_name))) ::
          (pjoin (getRSDirAbs rs_dir 1 2 (ext.realIDdict rs_real_name)) out_fc_name,
            FileData.fc (removeFields (joinField in_fc_data ext.predTable))) ::
          [(pjoin (getRSDirAbs rs_dir 1 0 (ext.realIDdict rs_real_name)) in_fc_name,
            FileData.fc in_fc_data)],
        memFCs := [], memTables := [],
        rCmd := some (rCommand scriptDir out_dir in_params),
        exitKind := ExitKind.normal } := by
  simp only [runMain, hL, hC, hws, if_true, clear_inmemory_eq_nil]
  simp [successFiles, metaDocFor, setFile, MetadataWriter.addParameter,
    MetadataWriter.finalizeRun, clear_inmemory_eq_nil]

/-- Characterization of the project-mode run on a non-LocalDatabase
workspace: the copies into the project tree happen, then reading the
unbound `in_shp_name` raises NameError before `project.rs.xml` is
written, and the cleanup never runs. -/
lemma runMain_RS_nameError (in_fc_dir in_fc_name : String) (in_fc_data : FeatureClass)
    (in_params out_dir out_fc_name rs_dir rs_real_name scriptDir : String)
    (ext : Ext) (hL : checkLineOID in_fc_data = some true)
    (hC : ext.rWritesCSV = true) (hws : ¬ ext.workspaceType = "LocalDatabase") :
    runMain in_fc_dir in_fc_name in_fc_data in_params out_dir out_fc_name "true"
        rs_dir rs_real_name scriptDir ext =
      { messages := ["Predicting conductivity using Random Forest model in R...",
          "Joining predicted conductivity results to the stream network...",
          "Exporting final feature class as " ++ outFCPath out_dir out_fc_name,
          "Cleaning up final output...", "Exporting to Riverscapes project..."],
        errors := [],
        files := successFiles in_fc_dir in_fc_name in_fc_data in_params out_dir out_fc_name ext,
        rsFiles := (pjoin (getRSDirAbs rs_dir 1 2 (ext.realIDdict rs_real_name)) out_fc_name,
            FileData.fc (removeFields (joinField in_fc_data ext.predTable))) ::
          [(pjoin (getRSDirAbs rs_dir 1 0 (ext.realIDdict rs_real_name)) in_fc_name,
            FileData.fc in_fc_data)],
        memFCs := [("in_fc_tmp", joinField in_fc_data ext.predTable)], memTables := [],
        rCmd := some (rCommand scriptDir out_dir in_params),
        exitKind := ExitKind.exn "NameError" } := by
  simp only [runMain, hL, hC, if_true, if_neg hws]
  simp [successFiles, metaDocFor, setFile, MetadataWriter.addParameter,
    MetadataWriter.finalizeRun]

/-- Characterization of the run where the external R process does not
produce predicted_cond.csv: TableToTable raises, nothing was written. -/
lemma runMain_noCSV (in_fc_dir in_fc_name : String) (in_fc_data : FeatureClass)
    (in_params out_dir out_fc_name rs_bool rs_dir rs_real_name scriptDir : String)
    (ext : Ext) (hL : checkLineOID in_fc_data = some true)
    (hC : ext.rWritesCSV = false) :
    runMain in_fc_dir in_fc_name in_fc_data in_params out_dir out_fc_name rs_bool
        rs_dir rs_real_name scriptDir ext =
      { messages := ["Predicting conductivity using Random Forest model in R..."],
        errors := [],
        files := [(inFCPath in_fc_dir in_fc_name, FileData.fc in_fc_data)],
        rsFiles := [], memFCs := [], memTables := [],
        rCmd := some (rCommand scriptDir out_dir in_params),
        exitKind := ExitKind.exn "IOError" } := by
  simp only [runMain, hL, hC, if_true]
  simp

lemma getFile_cons_self (p : String) (d : FileData) (files : List (String × FileData)) :
    getFile ((p, d) :: files) p = some d := by
  simp [getFile, List.find?_cons]

lemma getFile_cons_ne (q : String) (d : FileData) (files : List (String × FileData))
    (p : String) (h : q ≠ p) : getFile ((q, d) :: files) p = getFile files p := by
  have hb : (q == p) = false := beq_eq_false_iff_ne.mpr h
  simp only [getFile, List.find?_cons, hb]

lemma getFile_removeFile_of_ne (p q : String) (h : p ≠ q)
    (files : List (String × FileData)) :
    getFile (removeFile q files) p = getFile files p := by
  unfold getFile removeFile
  induction files with
  | nil => rfl
  | cons e t ih =>
    cases he : e.1 == p with
    | true =>
      have hep : e.1 = p := eq_of_beq he
      have heq : (e.1 == q) = false := beq_eq_false_iff_ne.mpr (hep ▸ h)
      rw [List.filter_cons, if_pos (by rw [heq]; rfl)]
      simp only [List.find?_cons, he]
    | false =>
      cases heq : e.1 == q with
      | true =>
        rw [List.filter_cons, if_neg (by rw [heq]; simp)]
        rw [ih]
        simp only [List.find?_cons, he]
      | false =>
        rw [List.filter_cons, if_pos (by rw [heq]; rfl)]
        simp only [List.find?_cons, he]
        exact ih

/-- The abort branch of `main` (lines 213-215), shared by the C1 theorem
and the case analyses of the other claims. -/
lemma runMain_noField (in_fc_dir in_fc_name : String) (in_fc_data : FeatureClass)
    (in_params out_dir out_fc_name rs_bool rs_dir rs_real_name scriptDir : String)
    (ext : Ext) (h : hasField in_fc_data "LineOID" = false) :
    runMain in_fc_dir in_fc_name in_fc_data in_params out_dir out_fc_name rs_bool
        rs_dir rs_real_name scriptDir ext =
      { messages := [],
        errors := ["The LineOID attribute field is missing! Cancelling process..."],
        files := [(inFCPath in_fc_dir in_fc_name, FileData.fc in_fc_data)],
        rsFiles := [], memFCs := [], memTables := [], rCmd := none,
        exitKind := ExitKind.sysExit 0 } := by
  have hc := checkLineOID_ne_some_true_of_not_hasField in_fc_data h
  simp only [runMain, if_neg hc]

/-- Both successful branches leave the same output-directory file store:
the store after the writes, with predicted_cond.dbf and then
predicted_cond.csv deleted. -/
lemma runMain_files_success (in_fc_dir in_fc_name : String) (in_fc_data : FeatureClass)
    (in_params out_dir out_fc_name rs_bool rs_dir rs_real_name scriptDir : String)
    (ext : Ext) (hL : checkLineOID in_fc_data = some true)
    (hC : ext.rWritesCSV = true)
    (hRS : rs_bool = "true" → ext.workspaceType = "LocalDatabase") :
    (runMain in_fc_dir in_fc_name in_fc_data in_params out_dir out_fc_name rs_bool
        rs_dir rs_real_name scriptDir ext).files =
      removeFile (csvPath out_dir) (removeFile (dbfPath out_dir)
        (successFiles in_fc_dir in_fc_name in_fc_data in_params out_dir out_fc_name ext)) := by
  by_cases hrs : rs_bool = "true"
  · subst hrs
    rw [runMain_success_RS in_fc_dir in_fc_name in_fc_data in_params out_dir
      out_fc_name rs_dir rs_real_name scriptDir ext hL hC (hRS rfl)]
  · rw [runMain_success_noRS in_fc_dir in_fc_name in_fc_data in_params out_dir
      out_fc_name rs_bool rs_dir rs_real_name scriptDir ext hL hC hrs]

/-- Both successful branches terminate normally with an empty IN_MEMORY
workspace. -/
lemma runMain_mem_success (in_fc_dir in_fc_name : String) (in_fc_data : FeatureClass)
    (in_params out_dir out_fc_name rs_bool rs_dir rs_real_name scriptDir : String)
    (ext : Ext) (hL : checkLineOID in_fc_data = some true)
    (hC : ext.rWritesCSV = true)
    (hRS : rs_bool = "true" → ext.workspaceType = "LocalDatabase") :
    (runMain in_fc_dir in_fc_name in_fc_data in_params out_dir out_fc_name rs_bool
        rs_dir rs_real_name scriptDir ext).memFCs = [] ∧
    (runMain in_fc_dir in_fc_name in_fc_data in_params out_dir out_fc_name rs_bool
        rs_dir rs_real_name scriptDir ext).memTables = [] ∧
    (runMain in_fc_dir in_fc_name in_fc_data in_params out_dir out_fc_name rs_bool
        rs_dir rs_real_name scriptDir ext).exitKind = ExitKind.normal := by
  by_cases hrs : rs_bool = "true"
  · subst hrs
    rw [runMain_success_RS in_fc_dir in_fc_name in_fc_data in_params out_dir
      out_fc_name rs_dir rs_real_name scriptDir ext hL hC (hRS rfl)]
    exact ⟨rfl, rfl, rfl⟩
  · rw [runMain_success_noRS in_fc_dir in_fc_name in_fc_data in_params out_dir
      out_fc_name rs_bool rs_dir rs_real_name scriptDir ext hL hC hrs]
    exact ⟨rfl, rfl, rfl⟩

/-! ## Claims -/

/-- C1: for every input feature collection lacking an attribute field
named "LineOID", main performs no join (no R command is issued and the
in-memory workspace stays empty), writes no output feature class and no
metadata XML (the file store still holds exactly the untouched input),
emits the user-visible error message, and terminates via `sys.exit(0)`
— a clean exit with status code 0, not a failure code or an uncaught
exception. -/
theorem missing_lineOID_aborts_cleanly (in_fc_dir in_fc_name : String)
    (in_fc_data : FeatureClass)
    (in_params out_dir out_fc_name rs_bool rs_dir rs_real_name scriptDir : String)
    (ext : Ext) (h : hasField in_fc_data "LineOID" = false) :
    runMain in_fc_dir in_fc_name in_fc_data in_params out_dir out_fc_name rs_bool
        rs_dir rs_real_name scriptDir ext =
      { messages := [],
        errors := ["The LineOID attribute field is missing! Cancelling process..."],
        files := [(inFCPath in_fc_dir in_fc_name, FileData.fc in_fc_data)],
        rsFiles := [], memFCs := [], memTables := [], rCmd := none,
        exitKind := ExitKind.sysExit 0 } := by
  have hc := checkLineOID_ne_some_true_of_not_hasField in_fc_data h
  simp only [runMain, if_neg hc]

/-- Witness for C1: a concrete feature class with geometry, object-id
and an unrelated attribute field but no "LineOID" field. -/
theorem missing_lineOID_aborts_cleanly_witness :
    hasField ⟨[⟨"Shape", "Geometry"⟩, ⟨"FID", "OID"⟩, ⟨"GRIDCODE", "Integer"⟩], []⟩
        "LineOID" = false ∧
    runMain "C:\\data" "streams.shp"
        ⟨[⟨"Shape", "Geometry"⟩, ⟨"FID", "OID"⟩, ⟨"GRIDCODE", "Integer"⟩], []⟩
        "C:\\data\\ws_cond_param.dbf" "C:\\out" "streams_cond.shp" "false" ""
        "" "C:\\tool" ⟨"FileSystem", true, [], 0, "202610121030", "start", "stop", fun _ => "1"⟩ =
      { messages := [],
        errors := ["The LineOID attribute field is missing! Cancelling process..."],
        files := [(inFCPath "C:\\data" "streams.shp",
          FileData.fc ⟨[⟨"Shape", "Geometry"⟩, ⟨"FID", "OID"⟩, ⟨"GRIDCODE", "Integer"⟩], []⟩)],
        rsFiles := [], memFCs := [], memTables := [], rCmd := none,
        exitKind := ExitKind.sysExit 0 } :=
  ⟨rfl, missing_lineOID_aborts_cleanly "C:\\data" "streams.shp" _
    "C:\\data\\ws_cond_param.dbf" "C:\\out" "streams_cond.shp" "false" ""
    "" "C:\\tool" _ rfl⟩

/-- A concrete input stream network: object-id field, geometry field,
the join key, and one extra attribute field ("HUC8"); two segments with
keys 1 and 2. -/
def fcA : FeatureClass :=
  ⟨[⟨"FID", "OID"⟩, ⟨"Shape", "Geometry"⟩, ⟨"LineOID", "Integer"⟩, ⟨"HUC8", "Integer"⟩],
   [⟨[("LineOID", some 1), ("HUC8", some 17)]⟩, ⟨[("LineOID", some 2), ("HUC8", some 18)]⟩]⟩

/-- A concrete prediction table: the external process predicted a value
only for segment 1. -/
def predA : List PredRow := [⟨1, 0, 425⟩]

/-- Concrete external facts: a file-system workspace, the R process
succeeded and wrote `predA`. -/
def extA : Ext :=
  ⟨"FileSystem", true, predA, 0, "202610121030", "2026-10-12 10:30",
   "2026-10-12 10:31", fun _ => "rs1"⟩

/-- The output feature class the model produces from `fcA`/`predA`. -/
def fcAOut : FeatureClass :=
  ⟨[⟨"FID", "OID"⟩, ⟨"Shape", "Geometry"⟩, ⟨"LineOID", "Integer"⟩,
    ⟨"error_code", "Integer"⟩, ⟨"prdCond", "Double"⟩],
   [⟨[("LineOID", some 1), ("error_code", some 0), ("prdCond", some 425)]⟩,
    ⟨[("LineOID", some 2), ("error_code", none), ("prdCond", none)]⟩]⟩

/-- C3 counterexample: on a successful concrete run, the output feature
class written at the output path retains the object-id field "FID" —
a field that is not the geometry field, not "LineOID", not "error_code"
and not "prdCond" — because `removeFields` also spares every field of
type "OID" (line 66).  The output therefore has five attribute
categories, not exactly four, and not every other field is deleted. -/
theorem output_retains_oid_field :
    getFile (runMain "C:\\data" "streams.shp" fcA "C:\\data\\params.dbf" "C:\\out"
        "streams_cond.shp" "false" "C:\\rs" "realA" "C:\\tool" extA).files
        (outFCPath "C:\\out" "streams_cond.shp") = some (FileData.fc fcAOut) ∧
    (⟨"FID", "OID"⟩ : Field) ∈ fcAOut.fields ∧
    ("FID" : String) ≠ "LineOID" ∧ ("FID" : String) ≠ "error_code" ∧
    ("FID" : String) ≠ "prdCond" ∧ ("OID" : String) ≠ "Geometry" := by
  decide

/-- C3 (amended): after a successful run, the output feature class
contains exactly five attribute categories — the geometry-type fields,
the OID-type field, the join key "LineOID", the error-code field
"error_code" and the predicted-conductivity field "prdCond" — and every
other field is deleted by `removeFields`, irrespective of how many extra
fields the input carried.  Hypotheses: the input has the join key,
pairwise-distinct field names not clashing with the two joined columns,
the external process produced its csv, project mode (if on) has a
LocalDatabase workspace, and the output path differs from the metadata,
csv and dbf paths. -/
theorem output_fields_exactly_five_categories
    (in_fc_dir in_fc_name : String) (in_fc_data : FeatureClass)
    (in_params out_dir out_fc_name rs_bool rs_dir rs_real_name scriptDir : String)
    (ext : Ext)
    (hF : hasField in_fc_data "LineOID" = true)
    (hC : ext.rWritesCSV = true)
    (hRS : rs_bool = "true" → ext.workspaceType = "LocalDatabase")
    (hnd : (in_fc_data.fields.map Field.name).Nodup)
    (hec : hasField in_fc_data "error_code" = false)
    (hpc : hasField in_fc_data "prdCond" = false)
    (h1 : outFCPath out_dir out_fc_name ≠ outXmlPath out_dir ext.timeStamp)
    (h2 : outFCPath out_dir out_fc_name ≠ csvPath out_dir)
    (h3 : outFCPath out_dir out_fc_name ≠ dbfPath out_dir) :
    ∃ fcOut,
      getFile (runMain in_fc_dir in_fc_name in_fc_data in_params out_dir out_fc_name
          rs_bool rs_dir rs_real_name scriptDir ext).files
          (outFCPath out_dir out_fc_name) = some (FileData.fc fcOut) ∧
      fcOut.fields = (in_fc_data.fields ++
        [Field.mk "error_code" "Integer", Field.mk "prdCond" "Double"]).filter
          (fun f => !(dropPred f)) ∧
      (∀ f ∈ fcOut.fields, f.ftype = "Geometry" ∨ f.ftype = "OID" ∨
        f.name = "LineOID" ∨ f.name = "error_code" ∨ f.name = "prdCond") := by
  have hL := checkLineOID_of_hasField in_fc_data hF
  refine ⟨removeFields (joinField in_fc_data ext.predTable), ?_, ?_, ?_⟩
  · rw [runMain_files_success in_fc_dir in_fc_name in_fc_data in_params out_dir
      out_fc_name rs_bool rs_dir rs_real_name scriptDir ext hL hC hRS]
    rw [getFile_removeFile_of_ne _ _ h2, getFile_removeFile_of_ne _ _ h3]
    unfold successFiles
    rw [getFile_cons_ne _ _ _ _ h1.symm, getFile_cons_self]
  · have hndj : ((joinField in_fc_data ext.predTable).fields.map Field.name).Nodup := by
      show ((in_fc_data.fields ++
        [Field.mk "error_code" "Integer", Field.mk "prdCond" "Double"]).map Field.name).Nodup
      rw [List.map_append, List.nodup_append]
      refine ⟨hnd, by simp, ?_⟩
      intro x hx
      obtain ⟨g, hg, hgn⟩ := List.mem_map.mp hx
      simp only [List.map_cons, List.map_nil]
      intro hmem
      rcases List.mem_cons.mp hmem with hx1 | hx1
      · have : hasField in_fc_data "error_code" = true := by
          apply List.any_eq_true.mpr
          exact ⟨g, hg, by rw [hgn, hx1]; exact beq_self_eq_true _⟩
        rw [this] at hec
        exact Bool.noConfusion hec
      · rcases List.mem_cons.mp hx1 with hx2 | hx2
        · have : hasField in_fc_data "prdCond" = true := by
            apply List.any_eq_true.mpr
            exact ⟨g, hg, by rw [hgn, hx2]; exact beq_self_eq_true _⟩
          rw [this] at hpc
          exact Bool.noConfusion hpc
        · exact absurd hx2 (List.not_mem_nil x)
    exact removeFields_fields_of_nodup _ hndj
  · intro f hf
    have := mem_removeFields_fields _ f hf
    exact (dropPred_eq_false_iff f).mp this.2

/-- Witness for the amended C3 theorem: the concrete run on `fcA`. -/
theorem output_fields_exactly_five_categories_witness :
    ∃ fcOut,
      getFile (runMain "C:\\data" "streams.shp" fcA "C:\\data\\params.dbf" "C:\\out"
          "streams_cond.shp" "false" "C:\\rs" "realA" "C:\\tool" extA).files
          (outFCPath "C:\\out" "streams_cond.shp") = some (FileData.fc fcOut) ∧
      fcOut.fields = (fcA.fields ++
        [Field.mk "error_code" "Integer", Field.mk "prdCond" "Double"]).filter
          (fun f => !(dropPred f)) ∧
      (∀ f ∈ fcOut.fields, f.ftype = "Geometry" ∨ f.ftype = "OID" ∨
        f.name = "LineOID" ∨ f.name = "error_code" ∨ f.name = "prdCond") :=
  output_fields_exactly_five_categories "C:\\data" "streams.shp" fcA
    "C:\\data\\params.dbf" "C:\\out" "streams_cond.shp" "false" "C:\\rs" "realA"
    "C:\\tool" extA (by decide) (by decide) (by intro h; exact absurd h (by decide))
    (by decide) (by decide) (by decide) (by decide) (by decide) (by decide)

/-- C4: for every segment whose "LineOID" key is present in both the
input feature collection and the prediction table, the output feature
class's "prdCond" value for that row equals the prediction table's value
for that key; for every segment absent from the prediction table the
output's "prdCond" value is null (none) — and no row is dropped (the
output has exactly as many rows as the input).  Both cases are the
single equation with `Option.map` over `List.find?`.  Hypotheses as in
the C3 theorem, plus: input rows do not already carry "error_code" or
"prdCond" attributes (those columns are created by the join). -/
theorem join_is_left_outer_on_lineOID
    (in_fc_dir in_fc_name : String) (in_fc_data : FeatureClass)
    (in_params out_dir out_fc_name rs_bool rs_dir rs_real_name scriptDir : String)
    (ext : Ext)
    (hF : hasField in_fc_data "LineOID" = true)
    (hC : ext.rWritesCSV = true)
    (hRS : rs_bool = "true" → ext.workspaceType = "LocalDatabase")
    (hrows : ∀ r ∈ in_fc_data.rows,
      r.hasAttr "error_code" = false ∧ r.hasAttr "prdCond" = false)
    (h1 : outFCPath out_dir out_fc_name ≠ outXmlPath out_dir ext.timeStamp)
    (h2 : outFCPath out_dir out_fc_name ≠ csvPath out_dir)
    (h3 : outFCPath out_dir out_fc_name ≠ dbfPath out_dir) :
    ∃ fcOut,
      getFile (runMain in_fc_dir in_fc_name in_fc_data in_params out_dir out_fc_name
          rs_bool rs_dir rs_real_name scriptDir ext).files
          (outFCPath out_dir out_fc_name) = some (FileData.fc fcOut) ∧
      fcOut.rows.length = in_fc_data.rows.length ∧
      (∀ (i : Nat) (r : Row) (k : Int), in_fc_data.rows[i]? = some r →
        lookupAttr r "LineOID" = some k →
        ∃ r', fcOut.rows[i]? = some r' ∧
          lookupAttr r' "prdCond" =
            (ext.predTable.find? (fun p => p.lineOID == k)).map PredRow.prdCond) := by
  have hL := checkLineOID_of_hasField in_fc_data hF
  refine ⟨removeFields (joinField in_fc_data ext.predTable), ?_, ?_, ?_⟩
  · rw [runMain_files_success in_fc_dir in_fc_name in_fc_data in_params out_dir
      out_fc_name rs_bool rs_dir rs_real_name scriptDir ext hL hC hRS]
    rw [getFile_removeFile_of_ne _ _ h2, getFile_removeFile_of_ne _ _ h3]
    unfold successFiles
    rw [getFile_cons_ne _ _ _ _ h1.symm, getFile_cons_self]
  · simp [removeFields, deleteFieldList, joinField]
  · intro i r k hi hk
    have hjrows : (removeFields (joinField in_fc_data ext.predTable)).rows =
        in_fc_data.rows.map (fun r =>
          (⟨(joinPred ext.predTable r).attrs.filter (fun a =>
            !((((joinField in_fc_data ext.predTable).fields.filter dropPred).map
              Field.name).contains a.1))⟩ : Row)) := by
      rw [removeFields_rows]
      show ((in_fc_data.rows.map (joinPred ext.predTable)).map _) = _
      rw [List.map_map]
      rfl
    refine ⟨⟨(joinPred ext.predTable r).attrs.filter (fun a =>
      !((((joinField in_fc_data ext.predTable).fields.filter dropPred).map
        Field.name).contains a.1))⟩, ?_, ?_⟩
    · rw [hjrows, List.getElem?_map, hi, Option.map_some']
    · have hmem : r ∈ in_fc_data.rows := List.getElem?_mem hi
      have hr := hrows r hmem
      have hcont := contains_dropNames_false (joinField in_fc_data ext.predTable)
        "prdCond" (Or.inr (Or.inr rfl))
      rw [lookupAttr_filter_of_not_contains _ _ _ hcont]
      exact lookupAttr_joinPred_prdCond ext.predTable r k hk hr.2

/-- Witness for C4: the concrete run on `fcA`/`predA` — segment 1 is in
both tables, segment 2 only in the input. -/
theorem join_is_left_outer_on_lineOID_witness :
    ∃ fcOut,
      getFile (runMain "C:\\data" "streams.shp" fcA "C:\\data\\params.dbf" "C:\\out"
          "streams_cond.shp" "false" "C:\\rs" "realA" "C:\\tool" extA).files
          (outFCPath "C:\\out" "streams_cond.shp") = some (FileData.fc fcOut) ∧
      fcOut.rows.length = fcA.rows.length ∧
      (∀ (i : Nat) (r : Row) (k : Int), fcA.rows[i]? = some r →
        lookupAttr r "LineOID" = some k →
        ∃ r', fcOut.rows[i]? = some r' ∧
          lookupAttr r' "prdCond" =
            (extA.predTable.find? (fun p => p.lineOID == k)).map PredRow.prdCond) :=
  join_is_left_outer_on_lineOID "C:\\data" "streams.shp" fcA "C:\\data\\params.dbf"
    "C:\\out" "streams_cond.shp" "false" "C:\\rs" "realA" "C:\\tool" extA
    (by decide) (by decide) (by intro h; exact absurd h (by decide))
    (by decide) (by decide) (by decide) (by decide)

/-- C5: for every run that passes the join-key check, the command line
handed to `subprocess.Popen` is `Rscript` plus the script path plus
exactly three positional arguments, in the order trained-model path,
output directory, parameter-table path; the run blocks and then proceeds
identically whatever the process's return code was (the code never
inspects it); when the process did not write predicted_cond.csv the run
dies later with an uncaught missing-file error at the
TableToTable conversion, having produced no output; and when the csv
exists the run never raises that error. -/
theorem r_command_line_and_return_code_ignored
    (in_fc_dir in_fc_name : String) (in_fc_data : FeatureClass)
    (in_params out_dir out_fc_name rs_bool rs_dir rs_real_name scriptDir : String)
    (ext : Ext)
    (hF : hasField in_fc_data "LineOID" = true) :
    ((runMain in_fc_dir in_fc_name in_fc_data in_params out_dir out_fc_name rs_bool
        rs_dir rs_real_name scriptDir ext).rCmd =
      some ["Rscript", pjoin scriptDir "condRF.R",
        pjoin scriptDir "rf17bCnd9.rdata", out_dir, in_params]) ∧
    (∀ c c' : Int,
      runMain in_fc_dir in_fc_name in_fc_data in_params out_dir out_fc_name rs_bool
          rs_dir rs_real_name scriptDir { ext with rReturnCode := c } =
        runMain in_fc_dir in_fc_name in_fc_data in_params out_dir out_fc_name rs_bool
          rs_dir rs_real_name scriptDir { ext with rReturnCode := c' }) ∧
    (ext.rWritesCSV = false →
      (runMain in_fc_dir in_fc_name in_fc_data in_params out_dir out_fc_name rs_bool
          rs_dir rs_real_name scriptDir ext).exitKind = ExitKind.exn "IOError" ∧
      (runMain in_fc_dir in_fc_name in_fc_data in_params out_dir out_fc_name rs_bool
          rs_dir rs_real_name scriptDir ext).files =
        [(inFCPath in_fc_dir in_fc_name, FileData.fc in_fc_data)]) ∧
    (ext.rWritesCSV = true →
      (runMain in_fc_dir in_fc_name in_fc_data in_params out_dir out_fc_name rs_bool
          rs_dir rs_real_name scriptDir ext).exitKind ≠ ExitKind.exn "IOError") := by
  have hL := checkLineOID_of_hasField in_fc_data hF
  refine ⟨?_, ?_, ?_, ?_⟩
  · cases hC : ext.rWritesCSV with
    | false =>
      rw [runMain_noCSV in_fc_dir in_fc_name in_fc_data in_params out_dir out_fc_name
        rs_bool rs_dir rs_real_name scriptDir ext hL hC]
      rfl
    | true =>
      by_cases hrs : rs_bool = "true"
      · subst hrs
        by_cases hws : ext.workspaceType = "LocalDatabase"
        · rw [runMain_success_RS in_fc_dir in_fc_name in_fc_data in_params out_dir
            out_fc_name rs_dir rs_real_name scriptDir ext hL hC hws]
          rfl
        · rw [runMain_RS_nameError in_fc_dir in_fc_name in_fc_data in_params out_dir
            out_fc_name rs_dir rs_real_name scriptDir ext hL hC hws]
          rfl
      · rw [runMain_success_noRS in_fc_dir in_fc_name in_fc_data in_params out_dir
          out_fc_name rs_bool rs_dir rs_real_name scriptDir ext hL hC hrs]
        rfl
  · intro c c'
    cases ext
    rfl
  · intro hC
    rw [runMain_noCSV in_fc_dir in_fc_name in_fc_data in_params out_dir out_fc_name
      rs_bool rs_dir rs_real_name scriptDir ext hL hC]
    exact ⟨rfl, rfl⟩
  · intro hC
    by_cases hrs : rs_bool = "true"
    · subst hrs
      by_cases hws : ext.workspaceType = "LocalDatabase"
      · rw [runMain_success_RS in_fc_dir in_fc_name in_fc_data in_params out_dir
          out_fc_name rs_dir rs_real_name scriptDir ext hL hC hws]
        simp
      · rw [runMain_RS_nameError in_fc_dir in_fc_name in_fc_data in_params out_dir
          out_fc_name rs_dir rs_real_name scriptDir ext hL hC hws]
        simp
    · rw [runMain_success_noRS in_fc_dir in_fc_name in_fc_data in_params out_dir
        out_fc_name rs_bool rs_dir rs_real_name scriptDir ext hL hC hrs]
      simp

/-- Witness for C5: the concrete run on `fcA` — the command line is the
expected five-element list. -/
theorem r_command_line_and_return_code_ignored_witness :
    ((runMain "C:\\data" "streams.shp" fcA "C:\\data\\params.dbf" "C:\\out"
        "streams_cond.shp" "false" "C:\\rs" "realA" "C:\\tool" extA).rCmd =
      some ["Rscript", pjoin "C:\\tool" "condRF.R",
        pjoin "C:\\tool" "rf17bCnd9.rdata", "C:\\out", "C:\\data\\params.dbf"]) ∧
    (∀ c c' : Int,
      runMain "C:\\data" "streams.shp" fcA "C:\\data\\params.dbf" "C:\\out"
          "streams_cond.shp" "false" "C:\\rs" "realA" "C:\\tool"
          { extA with rReturnCode := c } =
        runMain "C:\\data" "streams.shp" fcA "C:\\data\\params.dbf" "C:\\out"
          "streams_cond.shp" "false" "C:\\rs" "realA" "C:\\tool"
          { extA with rReturnCode := c' }) ∧
    (extA.rWritesCSV = false →
      (runMain "C:\\data" "streams.shp" fcA "C:\\data\\params.dbf" "C:\\out"
          "streams_cond.shp" "false" "C:\\rs" "realA" "C:\\tool" extA).exitKind =
        ExitKind.exn "IOError" ∧
      (runMain "C:\\data" "streams.shp" fcA "C:\\data\\params.dbf" "C:\\out"
          "streams_cond.shp" "false" "C:\\rs" "realA" "C:\\tool" extA).files =
        [(inFCPath "C:\\data" "streams.shp", FileData.fc fcA)]) ∧
    (extA.rWritesCSV = true →
      (runMain "C:\\data" "streams.shp" fcA "C:\\data\\params.dbf" "C:\\out"
          "streams_cond.shp" "false" "C:\\rs" "realA" "C:\\tool" extA).exitKind ≠
        ExitKind.exn "IOError") :=
  r_command_line_and_return_code_ignored "C:\\data" "streams.shp" fcA
    "C:\\data\\params.dbf" "C:\\out" "streams_cond.shp" "false" "C:\\rs" "realA"
    "C:\\tool" extA (by decide)

/-- C6: on every successful run, exactly one generic run-metadata XML
file is written: it sits in the output directory under the name
"meta_predict_<timestamp>.xml", and records the tool name "Predict
Conductivity" and version "0.4", the four declared run parameters, the
start/stop timestamp pair, and the final status string "Success".  The
path-disequality hypotheses keep the end-of-run deletion of
predicted_cond.csv/.dbf from hitting the metadata file. -/
theorem single_meta_xml_written
    (in_fc_dir in_fc_name : String) (in_fc_data : FeatureClass)
    (in_params out_dir out_fc_name rs_bool rs_dir rs_real_name scriptDir : String)
    (ext : Ext)
    (hF : hasField in_fc_data "LineOID" = true)
    (hC : ext.rWritesCSV = true)
    (hRS : rs_bool = "true" → ext.workspaceType = "LocalDatabase")
    (h1 : outXmlPath out_dir ext.timeStamp ≠ csvPath out_dir)
    (h2 : outXmlPath out_dir ext.timeStamp ≠ dbfPath out_dir) :
    (runMain in_fc_dir in_fc_name in_fc_data in_params out_dir out_fc_name rs_bool
        rs_dir rs_real_name scriptDir ext).files.filter (fun e => e.2.isMetaXml) =
      [(outXmlPath out_dir ext.timeStamp,
        FileData.metaXml (metaDocFor in_fc_dir in_fc_name in_params out_dir
          out_fc_name ext))] := by
  have hL := checkLineOID_of_hasField in_fc_data hF
  rw [runMain_files_success in_fc_dir in_fc_name in_fc_data in_params out_dir
    out_fc_name rs_bool rs_dir rs_real_name scriptDir ext hL hC hRS]
  have hb1 : (outXmlPath out_dir ext.timeStamp == csvPath out_dir) = false :=
    beq_eq_false_iff_ne.mpr h1
  have hb2 : (outXmlPath out_dir ext.timeStamp == dbfPath out_dir) = false :=
    beq_eq_false_iff_ne.mpr h2
  simp [removeFile, List.filter_filter, successFiles, FileData.isMetaXml, hb1, hb2]

/-- Witness for C6: the concrete run on `fcA`. -/
theorem single_meta_xml_written_witness :
    (runMain "C:\\data" "streams.shp" fcA "C:\\data\\params.dbf" "C:\\out"
        "streams_cond.shp" "false" "C:\\rs" "realA" "C:\\tool" extA).files.filter
        (fun e => e.2.isMetaXml) =
      [(outXmlPath "C:\\out" extA.timeStamp,
        FileData.metaXml (metaDocFor "C:\\data" "streams.shp" "C:\\data\\params.dbf"
          "C:\\out" "streams_cond.shp" extA))] :=
  single_meta_xml_written "C:\\data" "streams.shp" fcA "C:\\data\\params.dbf"
    "C:\\out" "streams_cond.shp" "false" "C:\\rs" "realA" "C:\\tool" extA
    (by decide) (by decide) (by intro h; exact absurd h (by decide))
    (by decide) (by decide)

/-- Concrete external facts for a project-mode run that completes: the
input's workspace is reported as "LocalDatabase". -/
def extB : Ext :=
  ⟨"LocalDatabase", true, predA, 0, "202610121030", "2026-10-12 10:30",
   "2026-10-12 10:31", fun _ => "rs1"⟩

/-- C7 counterexample: with the project-mode parameter equal to "true"
but a non-LocalDatabase input workspace, the run dies with the uncaught
NameError before `ecXML.write()`, so no project lineage XML is produced
anywhere even though project mode is on — the "if" direction of the
claimed iff fails on such runs. -/
theorem project_mode_crash_writes_no_lineage :
    (runMain "C:\\data" "streams.shp" fcA "C:\\data\\params.dbf" "C:\\out"
        "streams_cond.shp" "true" "C:\\rs" "realA" "C:\\tool" extA).rsFiles.filter
        (fun e => e.2.isRsXml) = [] ∧
    (runMain "C:\\data" "streams.shp" fcA "C:\\data\\params.dbf" "C:\\out"
        "streams_cond.shp" "true" "C:\\rs" "realA" "C:\\tool" extA).files.filter
        (fun e => e.2.isRsXml) = [] ∧
    (runMain "C:\\data" "streams.shp" fcA "C:\\data\\params.dbf" "C:\\out"
        "streams_cond.shp" "true" "C:\\rs" "realA" "C:\\tool" extA).exitKind =
      ExitKind.exn "NameError" := by
  decide

/-- C7 (amended): among runs that terminate normally (no uncaught
exception and no abort), the project lineage XML and the copies of the
input/output feature classes into the project directory tree are
produced iff the project-mode parameter is the literal string "true";
for any other value the project store stays empty, so only the generic
run-metadata XML is written besides the output feature class. -/
theorem lineage_iff_project_mode_on_normal_exit
    (in_fc_dir in_fc_name : String) (in_fc_data : FeatureClass)
    (in_params out_dir out_fc_name rs_bool rs_dir rs_real_name scriptDir : String)
    (ext : Ext)
    (h : (runMain in_fc_dir in_fc_name in_fc_data in_params out_dir out_fc_name
      rs_bool rs_dir rs_real_name scriptDir ext).exitKind = ExitKind.normal) :
    (((runMain in_fc_dir in_fc_name in_fc_data in_params out_dir out_fc_name rs_bool
        rs_dir rs_real_name scriptDir ext).rsFiles.filter
        (fun e => e.2.isRsXml)) ≠ [] ↔ rs_bool = "true") ∧
    (rs_bool ≠ "true" →
      (runMain in_fc_dir in_fc_name in_fc_data in_params out_dir out_fc_name rs_bool
        rs_dir rs_real_name scriptDir ext).rsFiles = []) ∧
    (rs_bool = "true" →
      (rsXmlPath rs_dir, FileData.rsXml (metadata ext.startTime ext.stopTime
          (pjoin (getRSDirRel 1 0 (ext.realIDdict rs_real_name)) (in_fc_name ++ ".shp"))
          (pjoin (getRSDirRel 1 2 (ext.realIDdict rs_real_name)) out_fc_name)
          (ext.realIDdict rs_real_name))) ∈
        (runMain in_fc_dir in_fc_name in_fc_data in_params out_dir out_fc_name rs_bool
          rs_dir rs_real_name scriptDir ext).rsFiles ∧
      (pjoin (getRSDirAbs rs_dir 1 0 (ext.realIDdict rs_real_name)) in_fc_name,
          FileData.fc in_fc_data) ∈
        (runMain in_fc_dir in_fc_name in_fc_data in_params out_dir out_fc_name rs_bool
          rs_dir rs_real_name scriptDir ext).rsFiles ∧
      (pjoin (getRSDirAbs rs_dir 1 2 (ext.realIDdict rs_real_name)) out_fc_name,
          FileData.fc (removeFields (joinField in_fc_data ext.predTable))) ∈
        (runMain in_fc_dir in_fc_name in_fc_data in_params out_dir out_fc_name rs_bool
          rs_dir rs_real_name scriptDir ext).rsFiles) := by
  cases hF : hasField in_fc_data "LineOID" with
  | false =>
    rw [runMain_noField in_fc_dir in_fc_name in_fc_data in_params out_dir out_fc_name
      rs_bool rs_dir rs_real_name scriptDir ext hF] at h
    exact absurd h (by simp)
  | true =>
    have hL := checkLineOID_of_hasField in_fc_data hF
    cases hC : ext.rWritesCSV with
    | false =>
      rw [runMain_noCSV in_fc_dir in_fc_name in_fc_data in_params out_dir out_fc_name
        rs_bool rs_dir rs_real_name scriptDir ext hL hC] at h
      exact absurd h (by simp)
    | true =>
      by_cases hrs : rs_bool = "true"
      · subst hrs
        by_cases hws : ext.workspaceType = "LocalDatabase"
        · rw [runMain_success_RS in_fc_dir in_fc_name in_fc_data in_params out_dir
            out_fc_name rs_dir rs_real_name scriptDir ext hL hC hws]
          refine ⟨?_, fun hcon => absurd rfl hcon, fun _ => ?_⟩
          · simp [FileData.isRsXml]
          · refine ⟨List.mem_cons_self _ _, ?_, ?_⟩
            · exact List.mem_cons_of_mem _ (List.mem_cons_of_mem _
                (List.mem_cons_self _ _))
            · exact List.mem_cons_of_mem _ (List.mem_cons_self _ _)
        · rw [runMain_RS_nameError in_fc_dir in_fc_name in_fc_data in_params out_dir
            out_fc_name rs_dir rs_real_name scriptDir ext hL hC hws] at h
          exact absurd h (by simp)
      · rw [runMain_success_noRS in_fc_dir in_fc_name in_fc_data in_params out_dir
          out_fc_name rs_bool rs_dir rs_real_name scriptDir ext hL hC hrs]
        exact ⟨by simp [hrs], fun _ => rfl, fun hcon => absurd hcon hrs⟩

/-- Witness for the amended C7 theorem: the project-mode run on `extB`
(LocalDatabase workspace) terminates normally, so the theorem applies. -/
theorem lineage_iff_project_mode_on_normal_exit_witness :
    (((runMain "C:\\data" "streams.shp" fcA "C:\\data\\params.dbf" "C:\\out"
        "streams_cond.shp" "true" "C:\\rs" "realA" "C:\\tool" extB).rsFiles.filter
        (fun e => e.2.isRsXml)) ≠ [] ↔ ("true" : String) = "true") ∧
    (("true" : String) ≠ "true" →
      (runMain "C:\\data" "streams.shp" fcA "C:\\data\\params.dbf" "C:\\out"
        "streams_cond.shp" "true" "C:\\rs" "realA" "C:\\tool" extB).rsFiles = []) ∧
    (("true" : String) = "true" →
      (rsXmlPath "C:\\rs", FileData.rsXml (metadata extB.startTime extB.stopTime
          (pjoin (getRSDirRel 1 0 (extB.realIDdict "realA")) ("streams.shp" ++ ".shp"))
          (pjoin (getRSDirRel 1 2 (extB.realIDdict "realA")) "streams_cond.shp")
          (extB.realIDdict "realA"))) ∈
        (runMain "C:\\data" "streams.shp" fcA "C:\\data\\params.dbf" "C:\\out"
          "streams_cond.shp" "true" "C:\\rs" "realA" "C:\\tool" extB).rsFiles ∧
      (pjoin (getRSDirAbs "C:\\rs" 1 0 (extB.realIDdict "realA")) "streams.shp",
          FileData.fc fcA) ∈
        (runMain "C:\\data" "streams.shp" fcA "C:\\data\\params.dbf" "C:\\out"
          "streams_cond.shp" "true" "C:\\rs" "realA" "C:\\tool" extB).rsFiles ∧
      (pjoin (getRSDirAbs "C:\\rs" 1 2 (extB.realIDdict "realA")) "streams_cond.shp",
          FileData.fc (removeFields (joinField fcA extB.predTable))) ∈
        (runMain "C:\\data" "streams.shp" fcA "C:\\data\\params.dbf" "C:\\out"
          "streams_cond.shp" "true" "C:\\rs" "realA" "C:\\tool" extB).rsFiles) :=
  lineage_iff_project_mode_on_normal_exit "C:\\data" "streams.shp" fcA
    "C:\\data\\params.dbf" "C:\\out" "streams_cond.shp" "true" "C:\\rs" "realA"
    "C:\\tool" extB (by decide)

/-- C8: at the end of every successful run the IN_MEMORY workspace holds
no feature class and no table, the intermediate prediction files
predicted_cond.dbf and predicted_cond.csv no longer resolve, and the
only paths the output-directory store still holds are the (untouched)
input, the output feature class and the run-metadata XML — the run's
products in the output directory are exactly the output feature class
and the metadata XML. -/
theorem scratch_and_intermediates_deleted
    (in_fc_dir in_fc_name : String) (in_fc_data : FeatureClass)
    (in_params out_dir out_fc_name rs_bool rs_dir rs_real_name scriptDir : String)
    (ext : Ext)
    (hF : hasField in_fc_data "LineOID" = true)
    (hC : ext.rWritesCSV = true)
    (hRS : rs_bool = "true" → ext.workspaceType = "LocalDatabase") :
    (runMain in_fc_dir in_fc_name in_fc_data in_params out_dir out_fc_name rs_bool
      rs_dir rs_real_name scriptDir ext).memFCs = [] ∧
    (runMain in_fc_dir in_fc_name in_fc_data in_params out_dir out_fc_name rs_bool
      rs_dir rs_real_name scriptDir ext).memTables = [] ∧
    getFile (runMain in_fc_dir in_fc_name in_fc_data in_params out_dir out_fc_name
      rs_bool rs_dir rs_real_name scriptDir ext).files (csvPath out_dir) = none ∧
    getFile (runMain in_fc_dir in_fc_name in_fc_data in_params out_dir out_fc_name
      rs_bool rs_dir rs_real_name scriptDir ext).files (dbfPath out_dir) = none ∧
    (∀ e ∈ (runMain in_fc_dir in_fc_name in_fc_data in_params out_dir out_fc_name
        rs_bool rs_dir rs_real_name scriptDir ext).files,
      e.1 = inFCPath in_fc_dir in_fc_name ∨ e.1 = outFCPath out_dir out_fc_name ∨
      e.1 = outXmlPath out_dir ext.timeStamp) ∧
    (runMain in_fc_dir in_fc_name in_fc_data in_params out_dir out_fc_name rs_bool
      rs_dir rs_real_name scriptDir ext).exitKind = ExitKind.normal := by
  have hL := checkLineOID_of_hasField in_fc_data hF
  obtain ⟨hm1, hm2, hex⟩ := runMain_mem_success in_fc_dir in_fc_name in_fc_data
    in_params out_dir out_fc_name rs_bool rs_dir rs_real_name scriptDir ext hL hC hRS
  have hfiles := runMain_files_success in_fc_dir in_fc_name in_fc_data in_params
    out_dir out_fc_name rs_bool rs_dir rs_real_name scriptDir ext hL hC hRS
  refine ⟨hm1, hm2, ?_, ?_, ?_, hex⟩
  · rw [hfiles]
    exact getFile_removeFile_self _ _
  · rw [hfiles]
    by_cases hdc : dbfPath out_dir = csvPath out_dir
    · rw [hdc]
      exact getFile_removeFile_self _ _
    · rw [getFile_removeFile_of_ne _ _ hdc]
      exact getFile_removeFile_self _ _
  · rw [hfiles]
    intro e he
    obtain ⟨he1, hc1⟩ := List.mem_filter.mp he
    obtain ⟨he2, hc2⟩ := List.mem_filter.mp he1
    have hne1 : ¬ (e.1 = csvPath out_dir) := by simpa using hc1
    have hne2 : ¬ (e.1 = dbfPath out_dir) := by simpa using hc2
    simp only [successFiles, List.mem_cons, List.not_mem_nil, or_false] at he2
    rcases he2 with rfl | rfl | rfl | rfl | rfl | rfl
    · right; right; rfl
    · right; left; rfl
    · right; left; rfl
    · exact absurd rfl hne2
    · exact absurd rfl hne1
    · left; rfl

/-- Witness for C8: the concrete non-project run on `fcA`. -/
theorem scratch_and_intermediates_deleted_witness :
    (runMain "C:\\data" "streams.shp" fcA "C:\\data\\params.dbf" "C:\\out"
      "streams_cond.shp" "false" "C:\\rs" "realA" "C:\\tool" extA).memFCs = [] ∧
    (runMain "C:\\data" "streams.shp" fcA "C:\\data\\params.dbf" "C:\\out"
      "streams_cond.shp" "false" "C:\\rs" "realA" "C:\\tool" extA).memTables = [] ∧
    getFile (runMain "C:\\data" "streams.shp" fcA "C:\\data\\params.dbf" "C:\\out"
      "streams_cond.shp" "false" "C:\\rs" "realA" "C:\\tool" extA).files
      (csvPath "C:\\out") = none ∧
    getFile (runMain "C:\\data" "streams.shp" fcA "C:\\data\\params.dbf" "C:\\out"
      "streams_cond.shp" "false" "C:\\rs" "realA" "C:\\tool" extA).files
      (dbfPath "C:\\out") = none ∧
    (∀ e ∈ (runMain "C:\\data" "streams.shp" fcA "C:\\data\\params.dbf" "C:\\out"
        "streams_cond.shp" "false" "C:\\rs" "realA" "C:\\tool" extA).files,
      e.1 = inFCPath "C:\\data" "streams.shp" ∨
      e.1 = outFCPath "C:\\out" "streams_cond.shp" ∨
      e.1 = outXmlPath "C:\\out" extA.timeStamp) ∧
    (runMain "C:\\data" "streams.shp" fcA "C:\\data\\params.dbf" "C:\\out"
      "streams_cond.shp" "false" "C:\\rs" "realA" "C:\\tool" extA).exitKind =
      ExitKind.normal :=
  scratch_and_intermediates_deleted "C:\\data" "streams.shp" fcA
    "C:\\data\\params.dbf" "C:\\out" "streams_cond.shp" "false" "C:\\rs" "realA"
    "C:\\tool" extA (by decide) (by decide) (by intro h; exact absurd h (by decide))

/-- C9: in project mode, when the input's containing workspace is not of
type "LocalDatabase", `in_shp_name` is never bound (lines 133-135), so
building the relative lineage path at line 202 raises an uncaught
NameError and the lineage XML is never written — neither in the project
store nor anywhere in the output-directory store. -/
theorem project_mode_non_localdb_raises_nameerror
    (in_fc_dir in_fc_name : String) (in_fc_data : FeatureClass)
    (in_params out_dir out_fc_name rs_dir rs_real_name scriptDir : String)
    (ext : Ext)
    (hF : hasField in_fc_data "LineOID" = true)
    (hC : ext.rWritesCSV = true)
    (hws : ext.workspaceType ≠ "LocalDatabase") :
    (runMain in_fc_dir in_fc_name in_fc_data in_params out_dir out_fc_name "true"
      rs_dir rs_real_name scriptDir ext).exitKind = ExitKind.exn "NameError" ∧
    (runMain in_fc_dir in_fc_name in_fc_data in_params out_dir out_fc_name "true"
      rs_dir rs_real_name scriptDir ext).rsFiles.filter (fun e => e.2.isRsXml) = [] ∧
    (runMain in_fc_dir in_fc_name in_fc_data in_params out_dir out_fc_name "true"
      rs_dir rs_real_name scriptDir ext).files.filter (fun e => e.2.isRsXml) = [] := by
  have hL := checkLineOID_of_hasField in_fc_data hF
  rw [runMain_RS_nameError in_fc_dir in_fc_name in_fc_data in_params out_dir
    out_fc_name rs_dir rs_real_name scriptDir ext hL hC hws]
  refine ⟨rfl, by simp [FileData.isRsXml], by simp [successFiles, FileData.isRsXml]⟩

/-- Witness for C9: the concrete project-mode run on `extA`, whose
workspace type is "FileSystem". -/
theorem project_mode_non_localdb_raises_nameerror_witness :
    (runMain "C:\\data" "streams.shp" fcA "C:\\data\\params.dbf" "C:\\out"
      "streams_cond.shp" "true" "C:\\rs" "realA" "C:\\tool" extA).exitKind =
      ExitKind.exn "NameError" ∧
    (runMain "C:\\data" "streams.shp" fcA "C:\\data\\params.dbf" "C:\\out"
      "streams_cond.shp" "true" "C:\\rs" "realA" "C:\\tool" extA).rsFiles.filter
      (fun e => e.2.isRsXml) = [] ∧
    (runMain "C:\\data" "streams.shp" fcA "C:\\data\\params.dbf" "C:\\out"
      "streams_cond.shp" "true" "C:\\rs" "realA" "C:\\tool" extA).files.filter
      (fun e => e.2.isRsXml) = [] :=
  project_mode_non_localdb_raises_nameerror "C:\\data" "streams.shp" fcA
    "C:\\data\\params.dbf" "C:\\out" "streams_cond.shp" "C:\\rs" "realA" "C:\\tool"
    extA (by decide) (by decide) (by decide)

/-- C10: on every run — abort, crash or success, project mode or not —
the dataset stored at the input path is unchanged: the join mutates only
the IN_MEMORY copy and `removeFields` is applied only to the written
output, so at the end the input path still resolves to the original
feature class with all its fields and attribute values.  The hypotheses
say the input path is none of the four paths the run writes or
deletes. -/
theorem input_feature_class_never_modified
    (in_fc_dir in_fc_name : String) (in_fc_data : FeatureClass)
    (in_params out_dir out_fc_name rs_bool rs_dir rs_real_name scriptDir : String)
    (ext : Ext)
    (h1 : inFCPath in_fc_dir in_fc_name ≠ outFCPath out_dir out_fc_name)
    (h2 : inFCPath in_fc_dir in_fc_name ≠ outXmlPath out_dir ext.timeStamp)
    (h3 : inFCPath in_fc_dir in_fc_name ≠ csvPath out_dir)
    (h4 : inFCPath in_fc_dir in_fc_name ≠ dbfPath out_dir) :
    getFile (runMain in_fc_dir in_fc_name in_fc_data in_params out_dir out_fc_name
        rs_bool rs_dir rs_real_name scriptDir ext).files
      (inFCPath in_fc_dir in_fc_name) = some (FileData.fc in_fc_data) := by
  cases hF : hasField in_fc_data "LineOID" with
  | false =>
    rw [runMain_noField in_fc_dir in_fc_name in_fc_data in_params out_dir out_fc_name
      rs_bool rs_dir rs_real_name scriptDir ext hF]
    exact getFile_cons_self _ _ _
  | true =>
    have hL := checkLineOID_of_hasField in_fc_data hF
    cases hC : ext.rWritesCSV with
    | false =>
      rw [runMain_noCSV in_fc_dir in_fc_name in_fc_data in_params out_dir out_fc_name
        rs_bool rs_dir rs_real_name scriptDir ext hL hC]
      exact getFile_cons_self _ _ _
    | true =>
      have hsf : getFile (successFiles in_fc_dir in_fc_name in_fc_data in_params
          out_dir out_fc_name ext) (inFCPath in_fc_dir in_fc_name) =
          some (FileData.fc in_fc_data) := by
        unfold successFiles
        rw [getFile_cons_ne _ _ _ _ h2.symm, getFile_cons_ne _ _ _ _ h1.symm,
          getFile_cons_ne _ _ _ _ h1.symm, getFile_cons_ne _ _ _ _ h4.symm,
          getFile_cons_ne _ _ _ _ h3.symm, getFile_cons_self]
      by_cases hrs : rs_bool = "true"
      · subst hrs
        by_cases hws : ext.workspaceType = "LocalDatabase"
        · rw [runMain_success_RS in_fc_dir in_fc_name in_fc_data in_params out_dir
            out_fc_name rs_dir rs_real_name scriptDir ext hL hC hws]
          rw [getFile_removeFile_of_ne _ _ h3, getFile_removeFile_of_ne _ _ h4]
          exact hsf
        · rw [runMain_RS_nameError in_fc_dir in_fc_name in_fc_data in_params out_dir
            out_fc_name rs_dir rs_real_name scriptDir ext hL hC hws]
          exact hsf
      · rw [runMain_success_noRS in_fc_dir in_fc_name in_fc_data in_params out_dir
          out_fc_name rs_bool rs_dir rs_real_name scriptDir ext hL hC hrs]
        rw [getFile_removeFile_of_ne _ _ h3, getFile_removeFile_of_ne _ _ h4]
        exact hsf

/-- Witness for C10: the concrete run on `fcA` with distinct paths. -/
theorem input_feature_class_never_modified_witness :
    getFile (runMain "C:\\data" "streams.shp" fcA "C:\\data\\params.dbf" "C:\\out"
        "streams_cond.shp" "false" "C:\\rs" "realA" "C:\\tool" extA).files
      (inFCPath "C:\\data" "streams.shp") = some (FileData.fc fcA) :=
  input_feature_class_never_modified "C:\\data" "streams.shp" fcA
    "C:\\data\\params.dbf" "C:\\out" "streams_cond.shp" "false" "C:\\rs" "realA"
    "C:\\tool" extA (by decide) (by decide) (by decide) (by decide)

/-- C2 (code bug): `checkLineOID`'s docstring promises "A boolean true
or false value", and the claim states it returns false when "LineOID" is
absent; but for a feature class without that field,
`arcpy.ListFields(in_fc, "LineOID")` returns the empty list, the loop
body never runs, and the function falls off the end returning Python
`None` — not the boolean `False`.  (It does return `True` when the field
exists.) -/
theorem checkLineOID_missing_returns_none :
    checkLineOID ⟨[⟨"Shape", "Geometry"⟩, ⟨"FID", "OID"⟩], []⟩ = none ∧
    checkLineOID ⟨[⟨"Shape", "Geometry"⟩, ⟨"FID", "OID"⟩], []⟩ ≠ some false ∧
    checkLineOID ⟨[⟨"Shape", "Geometry"⟩, ⟨"FID", "OID"⟩,
      ⟨"LineOID", "Integer"⟩], []⟩ = some true := by
  decide

end PredictCond
